import Mathlib

/-!
Verification of the calculator interaction controller in
`src/ui/framework/src/ui-framework/accudraw/Calculator.tsx`.

The controller owns two fields of widget state (`displayValue`,
`_equalsClicked`) plus a reference to an external `CalculatorEngine`
instance.  The engine itself (`CalculatorEngine.tsx`) is an external
collaborator consumed only through its contract: here it is an abstract
structure of pure state transformers, and the controller's handlers are
embedded as functions from controller state to a new state paired with the
list of externally visible calls they make (engine calls and host
callbacks), in order.
-/

/-- The ten-member operator enumeration `CalculatorOperator`
(imported by `Calculator.tsx` from `./CalculatorEngine`). -/
inductive CalculatorOperator : Type
  | ClearAll
  | Clear
  | Backspace
  | Divide
  | Multiply
  | Subtract
  | Add
  | Decimal
  | Equals
  | NegPos
deriving DecidableEq

/-- The external engine contract (spec §6): `processValue` and
`processOperator` return the next display string, `clearAll` resets the
engine, `result` reads the current numeric value.  The engine instance is
mutated in place in the source; here it is explicit state of type `σ`,
and the two processing calls return the new engine state together with
the display string. -/
structure CalculatorEngineModel (σ : Type) where
  processValue : σ → String → σ × String
  processOperator : σ → CalculatorOperator → σ × String
  clearAll : σ → σ
  result : σ → Int

/-- Construction-time configuration of the `Calculator` component:
whether a commit (`onOk`) callback was supplied, whether a cancel
(`onCancel`) callback was supplied, and the optional initial numeric
value (a JS number, modelled as an integer; `if (this.props.initialValue)`
is falsy exactly for an absent or zero value). -/
structure CalculatorProps where
  hasOnOk : Bool
  hasOnCancel : Bool
  initialValue : Option Int
deriving DecidableEq

/-- Widget state owned by the controller: the React state field
`displayValue`, the instance field `_equalsClicked`, and the engine
instance held in the props. -/
structure CalculatorState (σ : Type) where
  displayValue : String
  equalsClicked : Bool
  engine : σ
deriving DecidableEq

/-- Externally visible calls a handler makes, in order: engine calls
(`processValue`, `processOperator`, `clearAll`) and host callbacks
(`onOk` with the committed number, `onCancel`). -/
inductive CalcEvent : Type
  | engineValue (keyChar : String)
  | engineOp (op : CalculatorOperator)
  | engineClearAll
  | commitCallback (value : Int)
  | cancelCallback
deriving DecidableEq

/-- The constructor of `Calculator` (lines 57–67): `displayValue` starts
as `"0"`; if `initialValue` is truthy (present and nonzero) it instead
becomes the engine's answer to one `processValue` call on the value's
decimal string.  `_equalsClicked` starts `false` (field initializer,
line 50). -/
def initCalculator {σ : Type} (E : CalculatorEngineModel σ) (e0 : σ)
    (p : CalculatorProps) : CalculatorState σ × List CalcEvent :=
  match p.initialValue with
  | none => ({ displayValue := "0", equalsClicked := false, engine := e0 }, [])
  | some v =>
      if v = 0 then
        ({ displayValue := "0", equalsClicked := false, engine := e0 }, [])
      else
        let r := E.processValue e0 (toString v)
        ({ displayValue := r.2, equalsClicked := false, engine := r.1 },
         [CalcEvent.engineValue (toString v)])

/-- `_onValueButtonClick` (lines 69–73): forward the character to
`engine.processValue` and take the returned string as the new
`displayValue`.  (The focus side effect has no state of its own.) -/
def onValueButtonClick {σ : Type} (E : CalculatorEngineModel σ)
    (s : CalculatorState σ) (keyChar : String) :
    CalculatorState σ × List CalcEvent :=
  let r := E.processValue s.engine keyChar
  ({ displayValue := r.2, equalsClicked := s.equalsClicked, engine := r.1 },
   [CalcEvent.engineValue keyChar])

/-- The Clear tie-break of `_onOperatorButtonClick` (lines 76–77): `Clear`
while `_equalsClicked` is promoted to `ClearAll`; every other operator is
left as is. -/
def promotedOperator (op : CalculatorOperator) (equalsClicked : Bool) :
    CalculatorOperator :=
  if op = CalculatorOperator.Clear ∧ equalsClicked = true then
    CalculatorOperator.ClearAll
  else op

/-- `_onOperatorButtonClick` (lines 75–87): promote, dispatch the
(possibly promoted) operator to `engine.processOperator`, take the
returned display string, then set `_equalsClicked` to `true` after
`Equals`, to `false` after `ClearAll`, and leave it unchanged
otherwise. -/
def onOperatorButtonClick {σ : Type} (E : CalculatorEngineModel σ)
    (s : CalculatorState σ) (op : CalculatorOperator) :
    CalculatorState σ × List CalcEvent :=
  let d := promotedOperator op s.equalsClicked
  let r := E.processOperator s.engine d
  let newEquals :=
    if d = CalculatorOperator.Equals then true
    else if d = CalculatorOperator.ClearAll then false
    else s.equalsClicked
  ({ displayValue := r.2, equalsClicked := newEquals, engine := r.1 },
   [CalcEvent.engineOp d])

/-- `_clearAll` (lines 113–116): clear the engine and reset
`_equalsClicked`.  Note that it does not touch the React state, so
`displayValue` is carried over unchanged. -/
def calcClearAll {σ : Type} (E : CalculatorEngineModel σ)
    (s : CalculatorState σ) : CalculatorState σ × List CalcEvent :=
  ({ displayValue := s.displayValue, equalsClicked := false,
     engine := E.clearAll s.engine },
   [CalcEvent.engineClearAll])

/-- `_ok` (lines 93–99): when an `onOk` callback was supplied, invoke it
with `engine.result` (read before the reset); then `_clearAll`. -/
def calcOk {σ : Type} (E : CalculatorEngineModel σ) (p : CalculatorProps)
    (s : CalculatorState σ) : CalculatorState σ × List CalcEvent :=
  let cb := if p.hasOnOk then [CalcEvent.commitCallback (E.result s.engine)] else []
  let r := calcClearAll E s
  (r.1, cb ++ r.2)

/-- `_cancel` (lines 105–111): when an `onCancel` callback was supplied,
invoke it with no arguments; then `_clearAll`. -/
def calcCancel {σ : Type} (E : CalculatorEngineModel σ) (p : CalculatorProps)
    (s : CalculatorState σ) : CalculatorState σ × List CalcEvent :=
  let cb := if p.hasOnCancel then [CalcEvent.cancelCallback] else []
  let r := calcClearAll E s
  (r.1, cb ++ r.2)

/-- `_handleKeyDown` (lines 165–223): the keyboard switch.  Digit keys go
to `_onValueButtonClick`; the listed operator keys go to
`_onOperatorButtonClick`; `Escape` invokes `_cancel`; `Enter` first
dispatches `Equals` when `_equalsClicked` is false and then invokes
`_ok` unconditionally; any other key falls through the switch and does
nothing. -/
def handleKeyDown {σ : Type} (E : CalculatorEngineModel σ)
    (p : CalculatorProps) (s : CalculatorState σ) (key : String) :
    CalculatorState σ × List CalcEvent :=
  match key with
  | "0" | "1" | "2" | "3" | "4" | "5" | "6" | "7" | "8" | "9" =>
      onValueButtonClick E s key
  | "a" | "A" => onOperatorButtonClick E s CalculatorOperator.ClearAll
  | "c" | "C" | "Clear" => onOperatorButtonClick E s CalculatorOperator.Clear
  | "Escape" => calcCancel E p s
  | "Backspace" => onOperatorButtonClick E s CalculatorOperator.Backspace
  | "/" | "Divide" => onOperatorButtonClick E s CalculatorOperator.Divide
  | "*" | "Multiply" => onOperatorButtonClick E s CalculatorOperator.Multiply
  | "-" | "Subtract" => onOperatorButtonClick E s CalculatorOperator.Subtract
  | "+" | "Add" => onOperatorButtonClick E s CalculatorOperator.Add
  | "." | "Decimal" => onOperatorButtonClick E s CalculatorOperator.Decimal
  | "=" => onOperatorButtonClick E s CalculatorOperator.Equals
  | "Enter" =>
      if s.equalsClicked = true then calcOk E p s
      else
        let r := onOperatorButtonClick E s CalculatorOperator.Equals
        let r2 := calcOk E p r.1
        (r2.1, r.2 ++ r2.2)
  | _ => (s, [])

/-- Every key the `_handleKeyDown` switch has a case for. -/
def handledKeys : List String :=
  ["0", "1", "2", "3", "4", "5", "6", "7", "8", "9",
   "a", "A", "c", "C", "Clear", "Escape", "Backspace",
   "/", "Divide", "*", "Multiply", "-", "Subtract",
   "+", "Add", ".", "Decimal", "=", "Enter"]

/-- The operators of the ten `OperatorButton`s rendered by
`CalculatorKeyPad` (lines 234–278), all wired to
`_onOperatorButtonClick`. -/
def keypadOperatorButtons : List CalculatorOperator :=
  [CalculatorOperator.ClearAll, CalculatorOperator.Clear,
   CalculatorOperator.Backspace, CalculatorOperator.Divide,
   CalculatorOperator.Multiply, CalculatorOperator.Subtract,
   CalculatorOperator.Add, CalculatorOperator.NegPos,
   CalculatorOperator.Decimal, CalculatorOperator.Equals]

/-- The key characters of the ten `ValueButton`s rendered by
`CalculatorKeyPad`, all wired to `_onValueButtonClick`. -/
def keypadValueButtons : List String :=
  ["7", "8", "9", "4", "5", "6", "1", "2", "3", "0"]

/-- A keyboard key from the `_handleKeyDown` switch for each operator
(`NegPos` is the one keypad operator the switch has no case for; it is
mapped to the empty string, which `_handleKeyDown` ignores). -/
def keyForOperator : CalculatorOperator → String
  | CalculatorOperator.ClearAll => "a"
  | CalculatorOperator.Clear => "c"
  | CalculatorOperator.Backspace => "Backspace"
  | CalculatorOperator.Divide => "/"
  | CalculatorOperator.Multiply => "*"
  | CalculatorOperator.Subtract => "-"
  | CalculatorOperator.Add => "+"
  | CalculatorOperator.Decimal => "."
  | CalculatorOperator.Equals => "="
  | CalculatorOperator.NegPos => ""

/-- A user action reaching the controller's two entry points, from a
button press or a key press. -/
inductive CalcAction : Type
  | value (keyChar : String)
  | operatorAct (op : CalculatorOperator)
deriving DecidableEq

/-- Dispatch one action to the matching controller entry point. -/
def applyAction {σ : Type} (E : CalculatorEngineModel σ)
    (s : CalculatorState σ) : CalcAction → CalculatorState σ × List CalcEvent
  | CalcAction.value c => onValueButtonClick E s c
  | CalcAction.operatorAct op => onOperatorButtonClick E s op

/-- Run a sequence of actions, threading the controller state. -/
def runActions {σ : Type} (E : CalculatorEngineModel σ)
    (s : CalculatorState σ) : List CalcAction → CalculatorState σ
  | [] => s
  | a :: rest => runActions E (applyAction E s a).1 rest

/-- Modelled from the spec: `CalculatorEngine.tsx` is not under `src/`,
so this is a minimal instance of the §6 engine contract, used only to
produce concrete witnesses and counterexamples for the controller.  Its
state is the current entry string (also its display string):
`processValue` appends the digit (replacing a lone `"0"`), operators
leave the entry unchanged, `clearAll` resets the entry to `"0"`, and
`result` reads the entry's decimal digits as a number. -/
def specEngine : CalculatorEngineModel String where
  processValue := fun s c => let s2 := if s = "0" then c else s ++ c; (s2, s2)
  processOperator := fun s _ => (s, s)
  clearAll := fun _ => "0"
  result := fun s =>
    Int.ofNat (s.data.foldl (fun n c => 10 * n + (c.toNat - 48)) 0)

/-- Props with no callbacks and no initial value, for concrete runs. -/
def cxProps : CalculatorProps :=
  { hasOnOk := false, hasOnCancel := false, initialValue := none }

/-- The freshly constructed state over `specEngine` with no initial
value. -/
def cxInitState : CalculatorState String :=
  { displayValue := "0", equalsClicked := false, engine := "0" }

/-- Claim C1 (counterexample): commit does not reset `displayValue` to the
engine's post-`clearAll` display.  Enter `"5"` from a fresh state, then
commit: the engine is cleared (its state, which is also its display
string under `specEngine`, becomes `"0"`), but `displayValue` is still
`"5"`. -/
theorem c1_display_not_reset_cx :
    (calcOk specEngine cxProps
        (onValueButtonClick specEngine cxInitState "5").1).1.engine
      = specEngine.clearAll (onValueButtonClick specEngine cxInitState "5").1.engine
    ∧ (calcOk specEngine cxProps
        (onValueButtonClick specEngine cxInitState "5").1).1.displayValue
      ≠ (calcOk specEngine cxProps
        (onValueButtonClick specEngine cxInitState "5").1).1.engine :=
  ⟨rfl, by decide⟩

/-- Claim C1 (amended): after every `_ok` or `_cancel`, the engine is
cleared via `clearAll` and `_equalsClicked` is `false`, but
`displayValue` is left unchanged rather than reset to the engine's
cleared display. -/
theorem c1_reset_amended {σ : Type} (E : CalculatorEngineModel σ)
    (p : CalculatorProps) (s : CalculatorState σ) :
    (calcOk E p s).1
      = { displayValue := s.displayValue, equalsClicked := false,
          engine := E.clearAll s.engine }
    ∧ (calcCancel E p s).1
      = { displayValue := s.displayValue, equalsClicked := false,
          engine := E.clearAll s.engine } :=
  ⟨rfl, rfl⟩

/-- Claim C2: `submitOperator` dispatches `ClearAll` in place of `Clear`
exactly when `_equalsClicked` holds, and dispatches every other operator
(and `Clear` without a finalized result) unchanged: the single engine
call carries the promoted operator, whose value is this conditional. -/
theorem c2_clear_promotion {σ : Type} (E : CalculatorEngineModel σ)
    (s : CalculatorState σ) (op : CalculatorOperator) :
    (onOperatorButtonClick E s op).2 =
      [CalcEvent.engineOp
        (if op = CalculatorOperator.Clear ∧ s.equalsClicked = true then
          CalculatorOperator.ClearAll
        else op)] :=
  rfl

/-- Claim C3: after `submitOperator`, `_equalsClicked` is `true` when the
dispatched (post-promotion) operator was `Equals`, `false` when it was
`ClearAll`, and unchanged otherwise; `submitValue` never changes it. -/
theorem c3_resultFinalized_update {σ : Type} (E : CalculatorEngineModel σ)
    (s : CalculatorState σ) (op : CalculatorOperator) (c : String) :
    (onOperatorButtonClick E s op).1.equalsClicked =
      (if promotedOperator op s.equalsClicked = CalculatorOperator.Equals then
        true
      else if promotedOperator op s.equalsClicked = CalculatorOperator.ClearAll then
        false
      else s.equalsClicked)
    ∧ (onValueButtonClick E s c).1.equalsClicked = s.equalsClicked :=
  ⟨rfl, rfl⟩

/-- Claim C4: handling `Enter` dispatches `Equals` first exactly when
`_equalsClicked` is false, and invokes `_ok` unconditionally: the state
and trace are the composition shown, the trace always contains the
`clearAll` of the commit reset, and it contains an `Equals` dispatch iff
`_equalsClicked` was false. -/
theorem c4_enter_commits {σ : Type} (E : CalculatorEngineModel σ)
    (p : CalculatorProps) (s : CalculatorState σ) :
    handleKeyDown E p s "Enter" =
      (if s.equalsClicked = true then calcOk E p s
       else
        ((calcOk E p (onOperatorButtonClick E s CalculatorOperator.Equals).1).1,
         (onOperatorButtonClick E s CalculatorOperator.Equals).2 ++
           (calcOk E p (onOperatorButtonClick E s CalculatorOperator.Equals).1).2))
    ∧ CalcEvent.engineClearAll ∈ (handleKeyDown E p s "Enter").2
    ∧ (CalcEvent.engineOp CalculatorOperator.Equals ∈ (handleKeyDown E p s "Enter").2
        ↔ s.equalsClicked = false) := by
  refine ⟨rfl, ?_, ?_⟩ <;>
    cases hs : s.equalsClicked <;> cases hk : p.hasOnOk <;>
      simp [handleKeyDown, calcOk, calcClearAll, onOperatorButtonClick,
        promotedOperator, hs, hk]

/-- Claim C5: handling `Escape` is exactly one `_cancel` invocation, and
the whole trace is the cancel callback (when supplied) followed by the
reset's `clearAll`: no value or operator action reaches the engine. -/
theorem c5_escape_cancels {σ : Type} (E : CalculatorEngineModel σ)
    (p : CalculatorProps) (s : CalculatorState σ) :
    handleKeyDown E p s "Escape" = calcCancel E p s
    ∧ (handleKeyDown E p s "Escape").2 =
        (if p.hasOnCancel then [CalcEvent.cancelCallback] else []) ++
          [CalcEvent.engineClearAll] :=
  ⟨rfl, rfl⟩

/-- Claim C7: `_ok` invokes the commit callback, when supplied, with the
engine's `result` read from the pre-reset engine state; `_cancel`
invokes the cancel callback, when supplied, with no payload; and both
perform the full reset whether or not the callback was supplied. -/
theorem c7_callbacks_and_reset {σ : Type} (E : CalculatorEngineModel σ)
    (p : CalculatorProps) (s : CalculatorState σ) :
    calcOk E p s =
      ({ displayValue := s.displayValue, equalsClicked := false,
         engine := E.clearAll s.engine },
       (if p.hasOnOk then [CalcEvent.commitCallback (E.result s.engine)] else []) ++
         [CalcEvent.engineClearAll])
    ∧ calcCancel E p s =
      ({ displayValue := s.displayValue, equalsClicked := false,
         engine := E.clearAll s.engine },
       (if p.hasOnCancel then [CalcEvent.cancelCallback] else []) ++
         [CalcEvent.engineClearAll]) :=
  ⟨rfl, rfl⟩

/-- Claim C9: any key without a case in the `_handleKeyDown` switch falls
through: the state is unchanged and no engine call, callback, or
life-cycle action happens. -/
theorem c9_unlisted_key_noop {σ : Type} (E : CalculatorEngineModel σ)
    (p : CalculatorProps) (s : CalculatorState σ) (key : String)
    (h : key ∉ handledKeys) :
    handleKeyDown E p s key = (s, []) := by
  unfold handleKeyDown
  split <;> first
    | rfl
    | simp_all [handledKeys]

/-- Claim C9 witness: the key `"q"` is unhandled and leaves the fresh
state untouched with an empty trace. -/
theorem c9_unlisted_key_noop_witness :
    ("q" ∉ handledKeys)
    ∧ handleKeyDown specEngine cxProps cxInitState "q" = (cxInitState, []) :=
  ⟨by decide, c9_unlisted_key_noop specEngine cxProps cxInitState "q" (by decide)⟩

/-- Claim C8 (counterexample): the keypad renders a `NegPos` operator
button, but no keyboard key makes `_handleKeyDown` produce the
`_onOperatorButtonClick` call for `NegPos`. -/
theorem c8_negpos_has_no_key :
    CalculatorOperator.NegPos ∈ keypadOperatorButtons
    ∧ ¬ ∃ key : String,
        handleKeyDown specEngine cxProps cxInitState key
          = onOperatorButtonClick specEngine cxInitState CalculatorOperator.NegPos := by
  refine ⟨by decide, ?_⟩
  rintro ⟨key, h⟩
  have h2 := congrArg Prod.snd h
  unfold handleKeyDown at h2
  split at h2 <;>
    simp_all [onValueButtonClick, onOperatorButtonClick, promotedOperator,
      calcCancel, calcClearAll, calcOk, cxInitState, cxProps, specEngine]

/-- Claim C8 (amended): for every keypad operator button other than
`NegPos` there is a keyboard key whose `_handleKeyDown` case is the same
`_onOperatorButtonClick` call, and every keypad digit button's key makes
`_handleKeyDown` issue the identical `_onValueButtonClick` call with the
digit character. -/
theorem c8_keypad_keyboard_parity {σ : Type} (E : CalculatorEngineModel σ)
    (p : CalculatorProps) (s : CalculatorState σ) (op : CalculatorOperator)
    (d : String) (hop : op ∈ keypadOperatorButtons)
    (hne : op ≠ CalculatorOperator.NegPos) (hd : d ∈ keypadValueButtons) :
    handleKeyDown E p s (keyForOperator op) = onOperatorButtonClick E s op
    ∧ handleKeyDown E p s d = onValueButtonClick E s d := by
  constructor
  · cases op <;> first | rfl | exact absurd rfl hne
  · fin_cases hd <;> rfl

/-- Claim C8 witness: the `Add` button and the `"+"` key, and the `"5"`
button and the `"5"` key, reach the same entry points with the same
arguments. -/
theorem c8_keypad_keyboard_parity_witness :
    handleKeyDown specEngine cxProps cxInitState "+"
        = onOperatorButtonClick specEngine cxInitState CalculatorOperator.Add
    ∧ handleKeyDown specEngine cxProps cxInitState "5"
        = onValueButtonClick specEngine cxInitState "5" :=
  c8_keypad_keyboard_parity specEngine cxProps cxInitState CalculatorOperator.Add
    "5" (by decide) (by decide) (by decide)

/-- The constructor always starts with `_equalsClicked = false`, whatever
the initial value. -/
theorem initCalculator_equalsClicked {σ : Type} (E : CalculatorEngineModel σ)
    (e0 : σ) (p : CalculatorProps) :
    (initCalculator E e0 p).1.equalsClicked = false := by
  cases hp : p.initialValue with
  | none => simp [initCalculator, hp]
  | some v => by_cases hv : v = 0 <;> simp [initCalculator, hp, hv]

/-- One action that is not the `Equals` operator keeps `_equalsClicked`
at `false`. -/
theorem applyAction_keeps_not_finalized {σ : Type} (E : CalculatorEngineModel σ)
    (s : CalculatorState σ) (a : CalcAction)
    (ha : a ≠ CalcAction.operatorAct CalculatorOperator.Equals)
    (hs : s.equalsClicked = false) :
    ((applyAction E s a).1).equalsClicked = false := by
  cases a with
  | value c => simpa [applyAction, onValueButtonClick] using hs
  | operatorAct op =>
      cases op <;> simp_all [applyAction, onOperatorButtonClick, promotedOperator]

/-- A sequence of actions with no `Equals` operator keeps
`_equalsClicked` at `false`. -/
theorem runActions_keeps_not_finalized {σ : Type} (E : CalculatorEngineModel σ) :
    ∀ (acts : List CalcAction) (s : CalculatorState σ),
      CalcAction.operatorAct CalculatorOperator.Equals ∉ acts →
      s.equalsClicked = false →
      (runActions E s acts).equalsClicked = false
  | [], _, _, hs => hs
  | a :: rest, s, h, hs => by
      have hne : a ≠ CalcAction.operatorAct CalculatorOperator.Equals := by
        intro hh
        exact h (hh ▸ List.mem_cons_self a rest)
      have hrest : CalcAction.operatorAct CalculatorOperator.Equals ∉ rest := by
        intro hh
        exact h (List.mem_cons_of_mem a hh)
      exact runActions_keeps_not_finalized E rest (applyAction E s a).1 hrest
        (applyAction_keeps_not_finalized E s a hne hs)

/-- Claim C6: starting from the freshly constructed state, any sequence
of value and operator actions that never dispatches `Equals` leaves
`_equalsClicked` (the `resultFinalized` flag) at `false` throughout. -/
theorem c6_no_equals_stays_unfinalized {σ : Type} (E : CalculatorEngineModel σ)
    (e0 : σ) (p : CalculatorProps) (acts : List CalcAction)
    (h : CalcAction.operatorAct CalculatorOperator.Equals ∉ acts) :
    (runActions E (initCalculator E e0 p).1 acts).equalsClicked = false :=
  runActions_keeps_not_finalized E acts (initCalculator E e0 p).1 h
    (initCalculator_equalsClicked E e0 p)

/-- Claim C6 witness: the sequence `7`, `Add`, `3`, `Clear` contains no
`Equals` and ends with the flag still `false`. -/
theorem c6_no_equals_stays_unfinalized_witness :
    (CalcAction.operatorAct CalculatorOperator.Equals ∉
      [CalcAction.value "7", CalcAction.operatorAct CalculatorOperator.Add,
       CalcAction.value "3", CalcAction.operatorAct CalculatorOperator.Clear])
    ∧ (runActions specEngine (initCalculator specEngine "0" cxProps).1
        [CalcAction.value "7", CalcAction.operatorAct CalculatorOperator.Add,
         CalcAction.value "3",
         CalcAction.operatorAct CalculatorOperator.Clear]).equalsClicked = false :=
  ⟨by decide,
   c6_no_equals_stays_unfinalized specEngine "0" cxProps _ (by decide)⟩

/-- Claim C10: with an absent or zero `initialValue` the display is
seeded with the literal `"0"` and the engine is untouched; with a
nonzero value the constructor makes exactly one `processValue` call on
the value's full decimal string and the display takes its return
value. -/
theorem c10_constructor_seed {σ : Type} (E : CalculatorEngineModel σ)
    (e0 : σ) (p : CalculatorProps) :
    (p.initialValue = none ∨ p.initialValue = some 0 →
      initCalculator E e0 p =
        ({ displayValue := "0", equalsClicked := false, engine := e0 }, []))
    ∧ (∀ v : Int, p.initialValue = some v → v ≠ 0 →
      initCalculator E e0 p =
        ({ displayValue := (E.processValue e0 (toString v)).2,
           equalsClicked := false,
           engine := (E.processValue e0 (toString v)).1 },
         [CalcEvent.engineValue (toString v)])) := by
  constructor
  · rintro (h | h) <;> simp [initCalculator, h]
  · intro v h hv
    simp [initCalculator, h, hv]

/-- Claim C10 witness: seeding with `37` makes one `processValue` call
with the two-character string `"37"` and adopts its return value. -/
theorem c10_constructor_seed_witness :
    initCalculator specEngine "0"
        { hasOnOk := false, hasOnCancel := false, initialValue := some 37 }
      = ({ displayValue := "37", equalsClicked := false, engine := "37" },
         [CalcEvent.engineValue "37"]) := by
  have h := (c10_constructor_seed specEngine "0"
    { hasOnOk := false, hasOnCancel := false, initialValue := some 37 }).2
    37 rfl (by decide)
  exact h
